import Mathlib

/-!
Verification of the request broker in `broker/broker.go` of
`dwladdimiroc/load-serverless`.

The broker is embedded shallowly:

* Go `http.Header` values are association lists from canonical header keys
  to value lists (the Go server stores inbound keys in canonical MIME form,
  e.g. `TE` as `Te`).
* The network is abstracted by an `Outcome` per backend: either a transport
  error (`http.Client.Do` returned an error) or a completed response with a
  status, headers and body.  `serveBackend` is the code of the Go function of
  the same name, parameterised by that outcome; the request-build error path
  of `http.NewRequestWithContext` (which cannot fire for the URLs built here)
  is not modelled.
* The client connection (`http.ResponseWriter`) is an explicit state: the
  response header map plus an ordered log of the write events the broker
  performs, so that ordering facts ("headers before status before body",
  "a failed-over attempt writes nothing") are provable.
* Bodies are byte lists (`List Nat`); the inbound body is a `BodyStream`,
  a byte list together with a flag saying whether the stream ends in a read
  error instead of EOF.
* `atomic.Uint64.Add(1)` returns the new value and wraps at `2^64`.
-/

namespace LoadServerless

/-- Go `http.Header`: a finite map from canonical header keys to lists of
values, modelled as an association list with at most one entry per key. -/
abbrev Header := List (String × List String)

/-- Lookup of all values of a key (Go `h[k]`, empty if absent). -/
def headerGet (h : Header) (k : String) : List String :=
  match h.find? (fun p => p.1 == k) with
  | some p => p.2
  | none => []

/-- Whether a key is present in the header map. -/
def headerHas (h : Header) (k : String) : Bool :=
  (h.find? (fun p => p.1 == k)).isSome

/-- Go `Header.Del`. -/
def headerDel (h : Header) (k : String) : Header :=
  h.filter (fun p => p.1 != k)

/-- Go `Header.Set`: replace the values of `k` by the single value `v`. -/
def headerSet (h : Header) (k v : String) : Header :=
  headerDel h k ++ [(k, [v])]

/-- The hop-by-hop header set of `copyHeaders` (broker.go lines 231-241),
with keys in Go's canonical MIME form as in the source map literal. -/
def hopByHop : List String :=
  ["Connection", "Proxy-Connection", "Keep-Alive", "Proxy-Authenticate",
   "Proxy-Authorization", "Te", "Trailer", "Transfer-Encoding", "Upgrade"]

/-- `copyHeaders(dst, src)` (broker.go lines 228-256): every entry of `src`
is copied into `dst` (`dst.Del(k)` then `dst.Add(k, v)` per value) unless its
key is hop-by-hop or one of the broker's own selection headers. -/
def copyHeaders (dst src : Header) : Header :=
  src.foldl
    (fun d p =>
      if hopByHop.contains p.1 then d
      else if p.1 == "X-Selected-Backend" || p.1 == "X-Selected-URL" then d
      else if p.2.isEmpty then headerDel d p.1
      else headerDel d p.1 ++ [p])
    dst

/-- A parsed URL, the fields of `net/url.URL` the broker uses.  Only URLs
with a non-empty host and no user/opaque/fragment parts occur here. -/
structure URL where
  scheme : String
  host : String
  path : String
  rawQuery : String
deriving DecidableEq, Inhabited

/-- The Go loop of `stringsTrimLeftSlash` on the character list. -/
def dropLeadingSlashes : List Char → List Char
  | [] => []
  | c :: cs => if c = '/' then dropLeadingSlashes cs else c :: cs

/-- `stringsTrimLeftSlash` (broker.go lines 213-218). -/
def stringsTrimLeftSlash (s : String) : String :=
  ⟨dropLeadingSlashes s.data⟩

/-- `stringsTrimRightSlash` (broker.go lines 220-225): the Go loop trims
trailing slashes, i.e. leading slashes of the reversed character list. -/
def stringsTrimRightSlash (s : String) : String :=
  ⟨(dropLeadingSlashes s.data.reverse).reverse⟩

/-- `net/url.URL.String` restricted to the URLs produced here (non-empty
host, no user/opaque/fragment): `scheme://host` then the escaped path — with
a `/` inserted when the path is non-empty, does not start with `/`, and the
host is non-empty — then `?rawQuery` when the query is non-empty.  Paths are
taken as already escaped; escaping never adds or removes `/` characters. -/
def urlString (u : URL) : String :=
  u.scheme ++ "://" ++ u.host ++
    (if u.path ≠ "" ∧ u.path.data.head? ≠ some '/' ∧ u.host ≠ "" then "/" else "") ++
    u.path ++
    (if u.rawQuery = "" then "" else "?" ++ u.rawQuery)

/-- `joinURL(base, path, rawQuery)` (broker.go lines 196-211). -/
def joinURL (base : URL) (path rawQuery : String) : String :=
  let path := if path = "" then "/" else path
  let u : URL :=
    if base.path = "" ∨ base.path = "/" then
      { base with path := path, rawQuery := rawQuery }
    else
      { base with
          path := stringsTrimRightSlash base.path ++ "/" ++ stringsTrimLeftSlash path,
          rawQuery := rawQuery }
  urlString u

/-- A named backend (broker.go lines 22-26); the shared transport is not
part of the functional model. -/
structure Backend where
  name : String
  baseURL : URL
deriving DecidableEq, Inhabited

/-- The backend URL constants (broker.go lines 14-16), as parsed by
`url.Parse`: both have an empty path. -/
def FunctionBackendURL : URL :=
  ⟨"https", "us-east1-powerful-vine-486914-k3.cloudfunctions.net", "", ""⟩

def VMBackendURL : URL :=
  ⟨"http", "10.142.0.3:8080", "", ""⟩

def vmBackend : Backend := ⟨"vm", VMBackendURL⟩

def serverlessBackend : Backend := ⟨"serverless", FunctionBackendURL⟩

/-- The backend list built in `main` (broker.go lines 55-60). -/
def brokerBackends : List Backend := [serverlessBackend, vmBackend]

/-- `MaxBodyBytes = int64(2 << 20)` (broker.go line 19). -/
def MaxBodyBytes : Nat := 2 <<< 20

/-- The inbound request body: the bytes the stream yields, and whether the
stream then ends in a read error instead of a clean EOF. -/
structure BodyStream where
  bytes : List Nat
  readErr : Bool
deriving DecidableEq

/-- `readUpTo(rc, max)` (broker.go lines 183-193):
`io.ReadAll(io.LimitReader(rc, max+1))` reads `min (max+1) (length bytes)`
bytes.  If the stream holds more than `max` bytes the limit is reached first,
so a late read error is never surfaced, and the length check fails; a read
error inside the limit surfaces as an error; otherwise the bytes are
returned.  `rc` is closed in every case. -/
def readUpTo (s : BodyStream) (max : Nat) : Option (List Nat) :=
  if s.bytes.length > max then none
  else if s.readErr then none
  else some s.bytes

/-- How many bytes `readUpTo` consumes from the stream: `io.LimitReader`
stops it at `max + 1`. -/
def readUpToConsumed (s : BodyStream) (max : Nat) : Nat :=
  min (max + 1) s.bytes.length

/-- The method test of the proxy handler (broker.go line 76). -/
def bufferedMethod (m : String) : Bool :=
  m == "POST" || m == "PUT" || m == "PATCH"

/-- An inbound request as the handler sees it: `r.Method`, `r.URL.Path`,
`r.URL.RawQuery`, `r.Header`, the client-facing `r.Host` and scheme, and
`r.Body` (`none` for a bodyless request). -/
structure Request where
  method : String
  path : String
  rawQuery : String
  headers : Header
  host : String
  scheme : String
  body : Option BodyStream

/-- The body-buffering step of the proxy handler (broker.go lines 74-82):
`none` means the handler answered 413 and returned; `some bodyCopy` is the
buffered body passed to both attempts (`none` inside when the method does
not buffer or there is no body). -/
def bufferBody (r : Request) : Option (Option (List Nat)) :=
  match r.body with
  | some s =>
    if bufferedMethod r.method then
      match readUpTo s MaxBodyBytes with
      | none => none
      | some b => some (some b)
    else some none
  | none => some none

/-- The outcome of one outbound attempt: `http.Client.Do` either returned an
error or a completed response. -/
inductive Outcome where
  | transportError
  | response (status : Nat) (headers : Header) (body : List Nat)
deriving DecidableEq

/-- The failover test of `serveBackend` (broker.go line 150):
`resp.StatusCode` is 502, 503 or 504. -/
def isRetryStatus (st : Nat) : Bool :=
  st == 502 || st == 503 || st == 504

/-- An attempt is failed over exactly when it was a transport error
(broker.go line 143) or its status is 502/503/504 (line 150). -/
def isRetryOutcome : Outcome → Bool
  | Outcome.transportError => true
  | Outcome.response st _ _ => isRetryStatus st

/-- One write event on the client connection. -/
inductive Event where
  | setHeader (k v : String)
  | copiedHeaders (src : Header)
  | wroteStatus (code : Nat)
  | wroteBodyBytes (b : List Nat)
  | wroteBodyString (s : String)
deriving DecidableEq

/-- The client connection: the response header map plus the ordered log of
writes performed on it. -/
structure ClientState where
  headers : Header
  log : List Event
deriving DecidableEq

def ClientState.init : ClientState := ⟨[], []⟩

/-- `w.Header().Set(k, v)`. -/
def wSetHeader (w : ClientState) (k v : String) : ClientState :=
  { headers := headerSet w.headers k v, log := w.log ++ [Event.setHeader k v] }

/-- `copyHeaders(w.Header(), src)`. -/
def wCopyHeaders (w : ClientState) (src : Header) : ClientState :=
  { headers := copyHeaders w.headers src, log := w.log ++ [Event.copiedHeaders src] }

/-- `w.WriteHeader(code)`. -/
def wWriteHeader (w : ClientState) (code : Nat) : ClientState :=
  { w with log := w.log ++ [Event.wroteStatus code] }

/-- `io.Copy(w, resp.Body)`. -/
def wWriteBytes (w : ClientState) (b : List Nat) : ClientState :=
  { w with log := w.log ++ [Event.wroteBodyBytes b] }

/-- A plain text write (the body of `http.Error`). -/
def wWriteString (w : ClientState) (s : String) : ClientState :=
  { w with log := w.log ++ [Event.wroteBodyString s] }

/-- Go `http.Error(w, msg, code)`: sets plain-text content headers, writes
the status, then the message followed by a newline. -/
def httpError (w : ClientState) (msg : String) (code : Nat) : ClientState :=
  wWriteString
    (wWriteHeader
      (wSetHeader
        (wSetHeader w "Content-Type" "text/plain; charset=utf-8")
        "X-Content-Type-Options" "nosniff")
      code)
    (msg ++ "\n")

/-- The outbound request `serveBackend` builds (broker.go lines 119-139). -/
structure OutRequest where
  method : String
  url : String
  host : String
  headers : Header
  body : Option (List Nat)
deriving DecidableEq

/-- Construction of the outbound request (broker.go lines 119-139): the
target URL from `joinURL`, headers copied from the inbound request into the
fresh header map of `http.NewRequestWithContext`, `Host` forced to the
backend's host, and the buffered body restored for POST/PUT/PATCH.  A
non-buffered method's pass-through body is abstracted as `none`. -/
def buildOutbound (be : Backend) (r : Request) (bodyCopy : Option (List Nat)) :
    OutRequest :=
  { method := r.method
    url := joinURL be.baseURL r.path r.rawQuery
    host := be.baseURL.host
    headers := copyHeaders [] r.headers
    body := if bufferedMethod r.method then bodyCopy else none }

/-- `serveBackend(be, w, r, bodyCopy)` (broker.go lines 114-173) given the
attempt's outcome.  Returns the updated client state, the boolean the Go
function returns (`false` requests failover), and the outbound request that
was issued. -/
def serveBackend (be : Backend) (r : Request) (bodyCopy : Option (List Nat))
    (outcome : Outcome) (w : ClientState) : ClientState × Bool × OutRequest :=
  let targetURL := joinURL be.baseURL r.path r.rawQuery
  let outReq := buildOutbound be r bodyCopy
  match outcome with
  | Outcome.transportError => (w, false, outReq)
  | Outcome.response st respH respBody =>
    if isRetryStatus st then (w, false, outReq)
    else
      let w1 := wSetHeader w "X-Selected-Backend" be.name
      let w2 := wSetHeader w1 "X-Selected-URL" targetURL
      let w3 := wCopyHeaders w2 respH
      let w4 := wWriteHeader w3 st
      let w5 := wWriteBytes w4 respBody
      (w5, true, outReq)

/-- The main proxy handler (broker.go lines 72-98), given the per-backend
attempt outcomes.  `rrNew` is the value `b.rr.Add(1)` returned for this
request.  Besides the final client state it returns the list of attempts
made: backend index plus the outbound request issued. -/
def proxyHandler (backends : List Backend) (rrNew : Nat) (r : Request)
    (outcomes : Nat → Outcome) (w : ClientState) :
    ClientState × List (Nat × OutRequest) :=
  match bufferBody r with
  | none => (httpError w "Request body too large or invalid" 413, [])
  | some bodyCopy =>
    let i := rrNew % backends.length
    let j := (i + 1) % backends.length
    let a1 := serveBackend (backends.getD i default) r bodyCopy (outcomes i) w
    if a1.2.1 then (a1.1, [(i, a1.2.2)])
    else
      let a2 := serveBackend (backends.getD j default) r bodyCopy (outcomes j) a1.1
      if a2.2.1 then (a2.1, [(i, a1.2.2), (j, a2.2.2)])
      else (httpError a2.1 "Both backends failed" 502, [(i, a1.2.2), (j, a2.2.2)])

/-- Go `uint64` arithmetic wraps at `2^64`. -/
def UInt64Mod : Nat := 2 ^ 64

/-- The value `b.rr.Add(1)` returns on the k-th request (k = 0, 1, ...) when
the counter held `c` before the test: Go's atomic `Add` increments and
returns the new value, wrapping at `2^64`. -/
def rrNewValue (c k : Nat) : Nat := (c + k + 1) % UInt64Mod

/-- The primary backend index of the k-th request (broker.go line 85). -/
def rrPrimaryIndex (c k n : Nat) : Nat := rrNewValue c k % n

/-- The secondary backend index of the k-th request (broker.go line 87). -/
def rrSecondaryIndex (c k n : Nat) : Nat := (rrPrimaryIndex c k n + 1) % n

/-- Modelled from the spec: primary = `backends[atomicFetchAndIncrement
(counter) mod N]` with `atomicFetchAndIncrement` returning the pre-increment
value, so that from a pre-test counter of 0 the claimed primary sequence is
backends[0], backends[1], backends[0], ... -/
def specPrimaryIndex (c k n : Nat) : Nat := (c + k) % n

/-- Modelled from the spec: join `base + path + query` with exactly one
slash between the base path and the incoming path, never a double slash and
never a missing separator. -/
def specOneSlashJoin (base : URL) (path rawQuery : String) : String :=
  let path := if path = "" then "/" else path
  base.scheme ++ "://" ++ base.host ++
    (stringsTrimRightSlash base.path ++ "/" ++ stringsTrimLeftSlash path) ++
    (if rawQuery = "" then "" else "?" ++ rawQuery)

/-- Predicate used to read statuses off the client log. -/
def isWroteStatus : Event → Bool
  | Event.wroteStatus _ => true
  | _ => false

/-- The first status code written on the client connection, if any. -/
def firstStatus (l : List Event) : Option Nat :=
  match l.find? isWroteStatus with
  | some (Event.wroteStatus c) => some c
  | _ => none

/-- The keys `copyHeaders` refuses to copy. -/
def skippedKey (k : String) : Prop :=
  k ∈ hopByHop ∨ k = "X-Selected-Backend" ∨ k = "X-Selected-URL"

/-- A concrete inbound GET request used to instantiate theorems. -/
def exampleGet : Request :=
  ⟨"GET", "/avg", "", [], "client.example.com", "http", none⟩

/-! ### Helper lemmas -/

theorem find?_filter_of_imp {α : Type} (p q : α → Bool) (l : List α)
    (himp : ∀ a, p a = true → q a = true) :
    (l.filter q).find? p = l.find? p := by
  induction l with
  | nil => rfl
  | cons a t ih =>
    cases hq : q a with
    | true =>
      cases hp : p a with
      | true => simp [List.filter_cons, hq, List.find?_cons, hp]
      | false => simp [List.filter_cons, hq, List.find?_cons, hp, ih]
    | false =>
      have hp : p a = false := by
        cases hpa : p a with
        | true => exact absurd (himp a hpa) (by simp [hq])
        | false => rfl
      simp [List.filter_cons, hq, List.find?_cons, hp, ih]

theorem find?_headerDel_ne (h : Header) (k k' : String) (hne : k ≠ k') :
    (headerDel h k').find? (fun p => p.1 == k) = h.find? (fun p => p.1 == k) := by
  refine find?_filter_of_imp _ _ h ?_
  intro a ha
  rw [beq_iff_eq] at ha
  rw [ha, bne_iff_ne]
  exact hne

theorem find?_headerDel_self (h : Header) (k : String) :
    (headerDel h k).find? (fun p => p.1 == k) = none := by
  rw [List.find?_eq_none]
  intro p hp
  have := (List.mem_filter.mp hp).2
  simpa using this

theorem headerGet_set_self (h : Header) (k v : String) :
    headerGet (headerSet h k v) k = [v] := by
  simp [headerSet, headerGet, List.find?_append, find?_headerDel_self]

theorem headerGet_set_ne (h : Header) (k k' v : String) (hne : k ≠ k') :
    headerGet (headerSet h k' v) k = headerGet h k := by
  have h2 : (k' == k) = false := by
    simp only [beq_eq_false_iff_ne]
    exact fun hkk => hne hkk.symm
  simp [headerSet, headerGet, List.find?_append, find?_headerDel_ne h k k' hne,
    List.find?_cons, h2]

theorem copyHeaders_cons (d : Header) (q : String × List String) (t : Header) :
    copyHeaders d (q :: t) =
      copyHeaders
        (if hopByHop.contains q.1 then d
         else if q.1 == "X-Selected-Backend" || q.1 == "X-Selected-URL" then d
         else if q.2.isEmpty then headerDel d q.1
         else headerDel d q.1 ++ [q]) t := rfl

theorem copyHeaders_find?_skipped (src : Header) (d : Header) (k : String)
    (hk : skippedKey k) :
    (copyHeaders d src).find? (fun p => p.1 == k) = d.find? (fun p => p.1 == k) := by
  induction src generalizing d with
  | nil => rfl
  | cons q t ih =>
    rw [copyHeaders_cons, ih]
    by_cases h1 : q.1 ∈ hopByHop
    · simp [h1]
    · by_cases h2 : q.1 = "X-Selected-Backend" ∨ q.1 = "X-Selected-URL"
      · simp [h1, h2]
      · have hqk : k ≠ q.1 := by
          intro he
          rcases hk with hmem | hxb | hxu
          · exact h1 (he ▸ hmem)
          · exact h2 (Or.inl (he ▸ hxb))
          · exact h2 (Or.inr (he ▸ hxu))
        have hq1k : (q.1 == k) = false := by
          simp only [beq_eq_false_iff_ne]
          exact fun hkk => hqk hkk.symm
        by_cases h3 : q.2 = []
        · simp [h1, h2, h3, find?_headerDel_ne d k q.1 hqk]
        · simp [h1, h2, h3, List.find?_append, find?_headerDel_ne d k q.1 hqk,
            List.find?_cons, hq1k]

theorem headerGet_copyHeaders_skipped (src : Header) (d : Header) (k : String)
    (hk : skippedKey k) :
    headerGet (copyHeaders d src) k = headerGet d k := by
  simp [headerGet, copyHeaders_find?_skipped src d k hk]

theorem copyHeaders_mem (src : Header) : ∀ (d : Header) (p : String × List String),
    p ∈ copyHeaders d src → p ∈ d ∨ p ∈ src := by
  induction src with
  | nil => exact fun d p hp => Or.inl hp
  | cons q t ih =>
    intro d p hp
    rw [copyHeaders_cons] at hp
    rcases ih _ p hp with h | h
    · by_cases h1 : q.1 ∈ hopByHop
      · simp [h1] at h
        exact Or.inl h
      · by_cases h2 : q.1 = "X-Selected-Backend" ∨ q.1 = "X-Selected-URL"
        · simp [h1, h2] at h
          exact Or.inl h
        · by_cases h3 : q.2 = []
          · simp [h1, h2, h3, headerDel, List.mem_filter] at h
            exact Or.inl h.1
          · simp [h1, h2, h3, headerDel, List.mem_filter] at h
            rcases h with h | h
            · exact Or.inl h.1
            · exact Or.inr (by simp [h])
    · exact Or.inr (List.mem_cons_of_mem _ h)

theorem serveBackend_ok (be : Backend) (r : Request) (bodyCopy : Option (List Nat))
    (outcome : Outcome) (w : ClientState) :
    (serveBackend be r bodyCopy outcome w).2.1 = !isRetryOutcome outcome := by
  cases outcome with
  | transportError => rfl
  | response st h b =>
    by_cases hs : isRetryStatus st <;> simp [serveBackend, isRetryOutcome, hs]

theorem serveBackend_state_of_retry (be : Backend) (r : Request)
    (bodyCopy : Option (List Nat)) (outcome : Outcome) (w : ClientState)
    (h : isRetryOutcome outcome = true) :
    (serveBackend be r bodyCopy outcome w).1 = w := by
  cases outcome with
  | transportError => rfl
  | response st hh b =>
    simp only [isRetryOutcome] at h
    simp [serveBackend, h]

theorem serveBackend_outreq (be : Backend) (r : Request) (bodyCopy : Option (List Nat))
    (outcome : Outcome) (w : ClientState) :
    (serveBackend be r bodyCopy outcome w).2.2 = buildOutbound be r bodyCopy := by
  cases outcome with
  | transportError => rfl
  | response st h b =>
    by_cases hs : isRetryStatus st <;> simp [serveBackend, hs]

/-! ### Claim theorems -/

/-- C1: for every completed attempt, the broker fails over to the alternate
backend if and only if the attempt's outcome is a transport error or an HTTP
status in {502, 503, 504}; every other status, including every 4xx, is
accepted and relayed to the client without a second attempt. -/
theorem serveBackend_failover_iff_retry
    (be : Backend) (r : Request) (bodyCopy : Option (List Nat)) (outcome : Outcome)
    (w : ClientState) (backends : List Backend) (rrNew : Nat) (outcomes : Nat → Outcome)
    (st : Nat) (respH : Header) (respBody : List Nat)
    (hlen : backends.length = 2) (hbuf : bufferBody r ≠ none)
    (hfirst : outcomes (rrNew % 2) = Outcome.response st respH respBody)
    (hst : isRetryStatus st = false) :
    ((serveBackend be r bodyCopy outcome w).2.1 = false ↔ isRetryOutcome outcome = true)
    ∧ (proxyHandler backends rrNew r outcomes ClientState.init).2.map Prod.fst
        = [rrNew % 2]
    ∧ firstStatus (proxyHandler backends rrNew r outcomes ClientState.init).1.log
        = some st := by
  rcases hbc : bufferBody r with _ | bodyCopy2
  · exact absurd hbc hbuf
  refine ⟨?_, ?_, ?_⟩
  · rw [serveBackend_ok]
    cases isRetryOutcome outcome <;> simp
  · simp [proxyHandler, hbc, hlen, serveBackend, hfirst, hst]
  · simp [proxyHandler, hbc, hlen, serveBackend, hfirst, hst, wSetHeader, wCopyHeaders,
      wWriteHeader, wWriteBytes, ClientState.init, firstStatus, isWroteStatus]

/-- Witness for C1: with both backends healthy and the second request of a
fresh counter, a 404 from the primary is relayed as the only attempt. -/
theorem serveBackend_failover_iff_retry_inst :
    ((serveBackend vmBackend exampleGet none Outcome.transportError
        ClientState.init).2.1 = false ↔ isRetryOutcome Outcome.transportError = true)
    ∧ (proxyHandler brokerBackends 2 exampleGet
        (fun _ => Outcome.response 404 [] []) ClientState.init).2.map Prod.fst = [0]
    ∧ firstStatus (proxyHandler brokerBackends 2 exampleGet
        (fun _ => Outcome.response 404 [] []) ClientState.init).1.log = some 404 :=
  serveBackend_failover_iff_retry vmBackend exampleGet none Outcome.transportError
    ClientState.init brokerBackends 2 (fun _ => Outcome.response 404 [] [])
    404 [] [] (by decide) (by decide) rfl (by decide)

/-- C2: for every inbound non-health request that passes body buffering, the
broker makes at most two outbound attempts, the two attempts (when both
occur) target distinct backends, and if both attempts are classified RETRY
the client receives a fixed 502 status with a generic body and no further
attempt is made. -/
theorem proxyHandler_attempt_invariants
    (backends : List Backend) (rrNew : Nat) (r : Request) (outcomes : Nat → Outcome)
    (bodyCopy : Option (List Nat))
    (hlen : backends.length = 2) (hbuf : bufferBody r = some bodyCopy) :
    (proxyHandler backends rrNew r outcomes ClientState.init).2.length ≤ 2
    ∧ ((proxyHandler backends rrNew r outcomes ClientState.init).2.map Prod.fst).Nodup
    ∧ (isRetryOutcome (outcomes (rrNew % 2)) = true →
       isRetryOutcome (outcomes ((rrNew % 2 + 1) % 2)) = true →
       (proxyHandler backends rrNew r outcomes ClientState.init).1
           = httpError ClientState.init "Both backends failed" 502
       ∧ (proxyHandler backends rrNew r outcomes ClientState.init).2.length = 2) := by
  have hj : (rrNew % 2 + 1) % 2 = (rrNew + 1) % 2 := by omega
  have hne : rrNew % 2 ≠ (rrNew + 1) % 2 := by omega
  by_cases hr1 : isRetryOutcome (outcomes (rrNew % 2)) = true
  · by_cases hr2 : isRetryOutcome (outcomes ((rrNew + 1) % 2)) = true
    · simp [proxyHandler, hbuf, hlen, serveBackend_ok, hr1, hr2, hj,
        serveBackend_state_of_retry, hne]
    · replace hr2 : isRetryOutcome (outcomes ((rrNew + 1) % 2)) = false := by
        simpa using hr2
      simp [proxyHandler, hbuf, hlen, serveBackend_ok, hr1, hr2, hj, hne]
  · replace hr1 : isRetryOutcome (outcomes (rrNew % 2)) = false := by simpa using hr1
    simp [proxyHandler, hbuf, hlen, serveBackend_ok, hr1]

/-- Witness for C2: both backends answer 503, so both are attempted and the
fixed generic 502 is produced. -/
theorem proxyHandler_attempt_invariants_inst :
    (proxyHandler brokerBackends 1 exampleGet
        (fun _ => Outcome.response 503 [] []) ClientState.init).2.length ≤ 2
    ∧ ((proxyHandler brokerBackends 1 exampleGet
        (fun _ => Outcome.response 503 [] []) ClientState.init).2.map Prod.fst).Nodup
    ∧ (isRetryOutcome ((fun _ => Outcome.response 503 [] []) (1 % 2)) = true →
       isRetryOutcome ((fun _ => Outcome.response 503 [] []) ((1 % 2 + 1) % 2)) = true →
       (proxyHandler brokerBackends 1 exampleGet
           (fun _ => Outcome.response 503 [] []) ClientState.init).1
           = httpError ClientState.init "Both backends failed" 502
       ∧ (proxyHandler brokerBackends 1 exampleGet
           (fun _ => Outcome.response 503 [] []) ClientState.init).2.length = 2) :=
  proxyHandler_attempt_invariants brokerBackends 1 exampleGet
    (fun _ => Outcome.response 503 [] []) none (by decide) (by decide)

/-- C6: on ACCEPT the relay first sets the two diagnostic headers, then
copies the backend's response headers, then writes the status, and only then
streams the body; an attempt classified RETRY writes nothing at all to the
client connection. -/
theorem serveBackend_two_phase_relay
    (be : Backend) (r : Request) (bodyCopy : Option (List Nat)) (outcome : Outcome)
    (st : Nat) (respH : Header) (respBody : List Nat) :
    (isRetryOutcome outcome = true →
      (serveBackend be r bodyCopy outcome ClientState.init).1.log = [])
    ∧ (outcome = Outcome.response st respH respBody → isRetryStatus st = false →
      (serveBackend be r bodyCopy outcome ClientState.init).1.log =
        [Event.setHeader "X-Selected-Backend" be.name,
         Event.setHeader "X-Selected-URL" (joinURL be.baseURL r.path r.rawQuery),
         Event.copiedHeaders respH,
         Event.wroteStatus st,
         Event.wroteBodyBytes respBody])
    ∧ (outcome = Outcome.response st respH respBody → isRetryStatus st = false →
      ∀ k ∈ hopByHop,
        headerHas (serveBackend be r bodyCopy outcome
          ClientState.init).1.headers k = false) := by
  refine ⟨?_, ?_, ?_⟩
  · intro h
    rw [serveBackend_state_of_retry _ _ _ _ _ h]
    rfl
  · intro he hst
    subst he
    simp [serveBackend, hst, wSetHeader, wCopyHeaders, wWriteHeader, wWriteBytes,
      ClientState.init]
  · intro he hst k hk
    subst he
    have hhead : (serveBackend be r bodyCopy (Outcome.response st respH respBody)
        ClientState.init).1.headers =
        copyHeaders (headerSet (headerSet ClientState.init.headers
          "X-Selected-Backend" be.name) "X-Selected-URL"
          (joinURL be.baseURL r.path r.rawQuery)) respH := by
      simp [serveBackend, hst, wSetHeader, wCopyHeaders, wWriteHeader, wWriteBytes]
    rw [hhead, headerHas, copyHeaders_find?_skipped _ _ _ (Or.inl hk)]
    fin_cases hk <;> rfl

/-- Witness for C6: a 200 response is relayed with the exact event order. -/
theorem serveBackend_two_phase_relay_inst :
    (isRetryOutcome (Outcome.response 200 [] [1]) = true →
      (serveBackend vmBackend exampleGet none (Outcome.response 200 [] [1])
          ClientState.init).1.log = [])
    ∧ (Outcome.response 200 [] [1] = Outcome.response 200 [] [1] →
       isRetryStatus 200 = false →
      (serveBackend vmBackend exampleGet none (Outcome.response 200 [] [1])
          ClientState.init).1.log =
        [Event.setHeader "X-Selected-Backend" vmBackend.name,
         Event.setHeader "X-Selected-URL"
           (joinURL vmBackend.baseURL exampleGet.path exampleGet.rawQuery),
         Event.copiedHeaders [],
         Event.wroteStatus 200,
         Event.wroteBodyBytes [1]])
    ∧ (Outcome.response 200 [] [1] = Outcome.response 200 [] [1] →
       isRetryStatus 200 = false →
      ∀ k ∈ hopByHop,
        headerHas (serveBackend vmBackend exampleGet none
          (Outcome.response 200 [] [1]) ClientState.init).1.headers k = false) :=
  serveBackend_two_phase_relay vmBackend exampleGet none
    (Outcome.response 200 [] [1]) 200 [] [1]

/-- C9: for every accepted backend response the diagnostic headers seen by
the client equal the broker's own backend name and resolved target URL, even
when the backend's response carries headers of the same names: those are
dropped when copying response headers, so a backend cannot spoof them. -/
theorem serveBackend_diag_headers_authoritative
    (be : Backend) (r : Request) (bodyCopy : Option (List Nat)) (st : Nat)
    (respH : Header) (respBody : List Nat) (w : ClientState)
    (hst : isRetryStatus st = false) :
    headerGet (serveBackend be r bodyCopy (Outcome.response st respH respBody)
        w).1.headers "X-Selected-Backend" = [be.name]
    ∧ headerGet (serveBackend be r bodyCopy (Outcome.response st respH respBody)
        w).1.headers "X-Selected-URL" = [joinURL be.baseURL r.path r.rawQuery] := by
  have hhead : (serveBackend be r bodyCopy (Outcome.response st respH respBody)
      w).1.headers =
      copyHeaders (headerSet (headerSet w.headers "X-Selected-Backend" be.name)
        "X-Selected-URL" (joinURL be.baseURL r.path r.rawQuery)) respH := by
    simp [serveBackend, hst, wSetHeader, wCopyHeaders, wWriteHeader, wWriteBytes]
  rw [hhead]
  constructor
  · rw [headerGet_copyHeaders_skipped _ _ _ (Or.inr (Or.inl rfl)),
      headerGet_set_ne _ _ _ _ (by decide), headerGet_set_self]
  · rw [headerGet_copyHeaders_skipped _ _ _ (Or.inr (Or.inr rfl)),
      headerGet_set_self]

/-- Witness for C9: a backend answering 200 with its own forged
`X-Selected-Backend`/`X-Selected-URL` headers cannot overwrite the broker's
values. -/
theorem serveBackend_diag_headers_authoritative_inst :
    headerGet (serveBackend vmBackend exampleGet none
        (Outcome.response 200
          [("X-Selected-Backend", ["evil"]), ("X-Selected-URL", ["evil"])] [])
        ClientState.init).1.headers "X-Selected-Backend" = [vmBackend.name]
    ∧ headerGet (serveBackend vmBackend exampleGet none
        (Outcome.response 200
          [("X-Selected-Backend", ["evil"]), ("X-Selected-URL", ["evil"])] [])
        ClientState.init).1.headers "X-Selected-URL"
        = [joinURL vmBackend.baseURL exampleGet.path exampleGet.rawQuery] :=
  serveBackend_diag_headers_authoritative vmBackend exampleGet none 200
    [("X-Selected-Backend", ["evil"]), ("X-Selected-URL", ["evil"])] []
    ClientState.init (by decide)

/-- C10: for a POST/PUT/PATCH request, any error while reading the request
body — not only exceeding the size cap — yields a 413 with the same
"Request body too large or invalid" message and zero outbound attempts. -/
theorem proxyHandler_body_read_error_413
    (backends : List Backend) (rrNew : Nat) (r : Request) (outcomes : Nat → Outcome)
    (s : BodyStream) (hb : r.body = some s) (hm : bufferedMethod r.method = true)
    (herr : s.readErr = true ∨ s.bytes.length > MaxBodyBytes) :
    proxyHandler backends rrNew r outcomes ClientState.init
        = (httpError ClientState.init "Request body too large or invalid" 413, [])
    ∧ firstStatus (proxyHandler backends rrNew r outcomes
        ClientState.init).1.log = some 413 := by
  have hread : readUpTo s MaxBodyBytes = none := by
    rw [readUpTo]
    rcases herr with h | h
    · split
      · rfl
      · simp [h]
    · simp [h]
  have hbuf : bufferBody r = none := by
    simp [bufferBody, hb, hm, hread]
  constructor
  · simp [proxyHandler, hbuf]
  · simp [proxyHandler, hbuf, httpError, wSetHeader, wWriteHeader, wWriteString,
      firstStatus, isWroteStatus, ClientState.init]

/-- Witness for C10: a POST whose body stream fails immediately (no bytes,
then a read error) is answered 413 with no attempts. -/
theorem proxyHandler_body_read_error_413_inst :
    proxyHandler brokerBackends 1
        ⟨"POST", "/avg", "", [], "client.example.com", "http", some ⟨[], true⟩⟩
        (fun _ => Outcome.response 200 [] []) ClientState.init
        = (httpError ClientState.init "Request body too large or invalid" 413, [])
    ∧ firstStatus (proxyHandler brokerBackends 1
        ⟨"POST", "/avg", "", [], "client.example.com", "http", some ⟨[], true⟩⟩
        (fun _ => Outcome.response 200 [] []) ClientState.init).1.log = some 413 :=
  proxyHandler_body_read_error_413 brokerBackends 1
    ⟨"POST", "/avg", "", [], "client.example.com", "http", some ⟨[], true⟩⟩
    (fun _ => Outcome.response 200 [] []) ⟨[], true⟩ rfl (by decide) (Or.inl rfl)

theorem proxyHandler_attempt_outreqs
    (backends : List Backend) (rrNew : Nat) (r : Request) (outcomes : Nat → Outcome)
    (w : ClientState) (bodyCopy : Option (List Nat))
    (hbuf : bufferBody r = some bodyCopy) :
    ∀ p ∈ (proxyHandler backends rrNew r outcomes w).2,
      p.2 = buildOutbound (backends.getD p.1 default) r bodyCopy := by
  intro p hp
  simp only [proxyHandler, hbuf] at hp
  by_cases h1 : (serveBackend (backends.getD (rrNew % backends.length) default) r
      bodyCopy (outcomes (rrNew % backends.length)) w).2.1 = true
  · rw [if_pos h1] at hp
    simp only [List.mem_singleton] at hp
    rw [hp]
    exact serveBackend_outreq _ _ _ _ _
  · rw [if_neg h1] at hp
    by_cases h2 : (serveBackend
        (backends.getD ((rrNew % backends.length + 1) % backends.length) default) r
        bodyCopy (outcomes ((rrNew % backends.length + 1) % backends.length))
        (serveBackend (backends.getD (rrNew % backends.length) default) r bodyCopy
          (outcomes (rrNew % backends.length)) w).1).2.1 = true
    · rw [if_pos h2] at hp
      simp only [List.mem_cons, List.mem_singleton, List.not_mem_nil, or_false] at hp
      rcases hp with hp | hp <;> rw [hp] <;> exact serveBackend_outreq _ _ _ _ _
    · rw [if_neg h2] at hp
      simp only [List.mem_cons, List.mem_singleton, List.not_mem_nil, or_false] at hp
      rcases hp with hp | hp <;> rw [hp] <;> exact serveBackend_outreq _ _ _ _ _

theorem proxyHandler_first_attempt
    (backends : List Backend) (rrNew : Nat) (r : Request) (outcomes : Nat → Outcome)
    (w : ClientState) (bodyCopy : Option (List Nat))
    (hbuf : bufferBody r = some bodyCopy) :
    ((proxyHandler backends rrNew r outcomes w).2.map Prod.fst).head?
      = some (rrNew % backends.length) := by
  simp only [proxyHandler, hbuf]
  by_cases h1 : (serveBackend (backends.getD (rrNew % backends.length) default) r
      bodyCopy (outcomes (rrNew % backends.length)) w).2.1 = true
  · rw [if_pos h1]
    rfl
  · rw [if_neg h1]
    by_cases h2 : (serveBackend
        (backends.getD ((rrNew % backends.length + 1) % backends.length) default) r
        bodyCopy (outcomes ((rrNew % backends.length + 1) % backends.length))
        (serveBackend (backends.getD (rrNew % backends.length) default) r bodyCopy
          (outcomes (rrNew % backends.length)) w).1).2.1 = true
    · rw [if_pos h2]
      rfl
    · rw [if_neg h2]
      rfl

/-- C4: body capture reads at most `MaxBodyBytes + 1` bytes from the stream;
a POST/PUT/PATCH body of exactly `MaxBodyBytes` succeeds and is forwarded on
every attempt, while a body one byte larger yields 413 with zero outbound
attempts, the remainder of the stream (up to the reader's limit) having been
consumed and discarded. -/
theorem readUpTo_body_cap
    (s t : BodyStream) (backends : List Backend) (rrNew : Nat) (r rt : Request)
    (outcomes outcomesT : Nat → Outcome)
    (hs : s.bytes.length = MaxBodyBytes) (hserr : s.readErr = false)
    (hr : r.body = some s) (hm : bufferedMethod r.method = true)
    (ht : t.bytes.length = MaxBodyBytes + 1)
    (hrt : rt.body = some t) (hmt : bufferedMethod rt.method = true) :
    readUpToConsumed s MaxBodyBytes ≤ MaxBodyBytes + 1
    ∧ readUpTo s MaxBodyBytes = some s.bytes
    ∧ (∀ p ∈ (proxyHandler backends rrNew r outcomes ClientState.init).2,
        p.2.body = some s.bytes)
    ∧ proxyHandler backends rrNew rt outcomesT ClientState.init
        = (httpError ClientState.init "Request body too large or invalid" 413, [])
    ∧ readUpToConsumed t MaxBodyBytes = MaxBodyBytes + 1 := by
  have hread : readUpTo s MaxBodyBytes = some s.bytes := by
    rw [readUpTo, if_neg (by omega), if_neg (by simp [hserr])]
  have hbuf : bufferBody r = some (some s.bytes) := by
    simp [bufferBody, hr, hm, hread]
  have hreadt : readUpTo t MaxBodyBytes = none := by
    rw [readUpTo, if_pos (by omega)]
  have hbuft : bufferBody rt = none := by
    simp [bufferBody, hrt, hmt, hreadt]
  refine ⟨Nat.min_le_left _ _, hread, ?_, ?_, ?_⟩
  · intro p hp
    rw [proxyHandler_attempt_outreqs backends rrNew r outcomes ClientState.init _
      hbuf p hp]
    simp [buildOutbound, hm]
  · simp [proxyHandler, hbuft]
  · rw [readUpToConsumed, ht]
    simp

/-- Witness for C4: a POST body of exactly `MaxBodyBytes` zero bytes is
buffered and forwarded; one of `MaxBodyBytes + 1` bytes is rejected 413. -/
theorem readUpTo_body_cap_inst :
    readUpToConsumed ⟨List.replicate MaxBodyBytes 0, false⟩ MaxBodyBytes
        ≤ MaxBodyBytes + 1
    ∧ readUpTo ⟨List.replicate MaxBodyBytes 0, false⟩ MaxBodyBytes
        = some (List.replicate MaxBodyBytes 0)
    ∧ (∀ p ∈ (proxyHandler brokerBackends 1
        ⟨"POST", "/avg", "", [], "client.example.com", "http",
          some ⟨List.replicate MaxBodyBytes 0, false⟩⟩
        (fun _ => Outcome.response 200 [] []) ClientState.init).2,
        p.2.body = some (List.replicate MaxBodyBytes 0))
    ∧ proxyHandler brokerBackends 1
        ⟨"POST", "/avg", "", [], "client.example.com", "http",
          some ⟨List.replicate (MaxBodyBytes + 1) 0, false⟩⟩
        (fun _ => Outcome.response 200 [] []) ClientState.init
        = (httpError ClientState.init "Request body too large or invalid" 413, [])
    ∧ readUpToConsumed ⟨List.replicate (MaxBodyBytes + 1) 0, false⟩ MaxBodyBytes
        = MaxBodyBytes + 1 :=
  readUpTo_body_cap ⟨List.replicate MaxBodyBytes 0, false⟩
    ⟨List.replicate (MaxBodyBytes + 1) 0, false⟩ brokerBackends 1
    ⟨"POST", "/avg", "", [], "client.example.com", "http",
      some ⟨List.replicate MaxBodyBytes 0, false⟩⟩
    ⟨"POST", "/avg", "", [], "client.example.com", "http",
      some ⟨List.replicate (MaxBodyBytes + 1) 0, false⟩⟩
    (fun _ => Outcome.response 200 [] []) (fun _ => Outcome.response 200 [] [])
    (by simp) rfl rfl (by decide) (by simp) rfl (by decide)

/-- C5: no hop-by-hop header and no client-supplied `X-Selected-Backend` or
`X-Selected-URL` header ever appears on the outbound request the forwarder
builds. -/
theorem outbound_strips_hop_by_hop (be : Backend) (r : Request)
    (bodyCopy : Option (List Nat)) (k : String) (hk : skippedKey k) :
    headerHas (buildOutbound be r bodyCopy).headers k = false := by
  have h := copyHeaders_find?_skipped r.headers [] k hk
  simp [buildOutbound, headerHas, h]

/-- Witness for C5: an inbound `Connection` header does not reach the
outbound request. -/
theorem outbound_strips_hop_by_hop_inst :
    headerHas (buildOutbound vmBackend
        ⟨"GET", "/avg", "", [("Connection", ["close"]), ("Te", ["x"])],
         "client.example.com", "http", none⟩ none).headers "Connection" = false :=
  outbound_strips_hop_by_hop vmBackend
    ⟨"GET", "/avg", "", [("Connection", ["close"]), ("Te", ["x"])],
     "client.example.com", "http", none⟩ none "Connection" (Or.inl (by decide))

/-- C8 counterexample: on a concrete inbound request the forwarder adds no
forwarding-metadata header at all — the outbound request of `serveBackend`
has an empty header map, and its Host is the backend's host, not the
originating client-facing host. -/
theorem buildOutbound_no_forwarding_metadata :
    (buildOutbound vmBackend exampleGet none).headers = []
    ∧ (buildOutbound vmBackend exampleGet none).host = "10.142.0.3:8080"
    ∧ exampleGet.host = "client.example.com"
    ∧ exampleGet.scheme = "http"
    ∧ (buildOutbound vmBackend exampleGet none).host ≠ exampleGet.host :=
  ⟨rfl, rfl, rfl, rfl, by decide⟩

/-- C8 amended: the forwarder adds no forwarding-metadata headers: every
header of the outbound request comes from the inbound request (minus the
stripped ones), and the outbound Host is the backend's host, not the
client-facing one. -/
theorem buildOutbound_adds_no_headers (be : Backend) (r : Request)
    (bodyCopy : Option (List Nat)) :
    (∀ p ∈ (buildOutbound be r bodyCopy).headers, p ∈ r.headers)
    ∧ (buildOutbound be r bodyCopy).host = be.baseURL.host := by
  constructor
  · intro p hp
    rcases copyHeaders_mem r.headers [] p hp with h | h
    · simp at h
    · exact h
  · rfl

/-- Witness for C8's amended claim at a concrete request. -/
theorem buildOutbound_adds_no_headers_inst :
    (∀ p ∈ (buildOutbound vmBackend exampleGet none).headers,
      p ∈ exampleGet.headers)
    ∧ (buildOutbound vmBackend exampleGet none).host = vmBackend.baseURL.host :=
  buildOutbound_adds_no_headers vmBackend exampleGet none

/-- C3 counterexample: with the counter at its initial pre-test value 0, the
first request's primary index computed by the code (`rr.Add(1) mod 2`, the
new value) is 1, not the 0 the spec's `backends[fetchAndIncrement mod N]`
sequence (backends[0] first) predicts. -/
theorem rrPrimaryIndex_first_request_counterexample :
    rrPrimaryIndex 0 0 2 = 1 ∧ specPrimaryIndex 0 0 2 = 0
    ∧ rrPrimaryIndex 0 0 2 ≠ specPrimaryIndex 0 0 2 := by decide

/-- C3 amended: the primary is `backends[(add-then-read counter) mod N]`,
i.e. index `(c + k + 1) mod 2` on the k-th request after pre-test value `c`;
the secondary is the other backend; the primary sequence strictly
alternates with period 2, starting at `backends[(c + 1) mod 2]` — which for
a fresh counter (c = 0) is backends[1], not backends[0] — and the handler's
first attempt uses exactly that index. -/
theorem rrPrimaryIndex_round_robin (c k : Nat)
    (backends : List Backend) (r : Request) (outcomes : Nat → Outcome)
    (bodyCopy : Option (List Nat))
    (hlen : backends.length = 2) (hbuf : bufferBody r = some bodyCopy) :
    rrPrimaryIndex c k 2 = (c + k + 1) % 2
    ∧ rrSecondaryIndex c k 2 = (rrPrimaryIndex c k 2 + 1) % 2
    ∧ rrPrimaryIndex c (k + 1) 2 ≠ rrPrimaryIndex c k 2
    ∧ rrPrimaryIndex c (k + 2) 2 = rrPrimaryIndex c k 2
    ∧ rrPrimaryIndex c 0 2 = (c + 1) % 2
    ∧ ((proxyHandler backends (rrNewValue c k) r outcomes ClientState.init).2.map
        Prod.fst).head? = some (rrPrimaryIndex c k 2) := by
  have hmod : ∀ x : Nat, x % UInt64Mod % 2 = x % 2 := fun x =>
    Nat.mod_mod_of_dvd x (by norm_num [UInt64Mod])
  have h1 : ∀ m, rrPrimaryIndex c m 2 = (c + m + 1) % 2 := fun m => by
    rw [rrPrimaryIndex, rrNewValue, hmod]
  refine ⟨h1 k, rfl, ?_, ?_, ?_, ?_⟩
  · rw [h1 k, h1 (k + 1)]
    omega
  · rw [h1 k, h1 (k + 2)]
    omega
  · rw [h1 0]
  · rw [proxyHandler_first_attempt backends (rrNewValue c k) r outcomes
      ClientState.init bodyCopy hbuf, hlen]
    rfl

/-- Witness for C3's amended claim: the first request of a fresh counter
picks backends[1]. -/
theorem rrPrimaryIndex_round_robin_inst :
    rrPrimaryIndex 0 0 2 = (0 + 0 + 1) % 2
    ∧ rrSecondaryIndex 0 0 2 = (rrPrimaryIndex 0 0 2 + 1) % 2
    ∧ rrPrimaryIndex 0 (0 + 1) 2 ≠ rrPrimaryIndex 0 0 2
    ∧ rrPrimaryIndex 0 (0 + 2) 2 = rrPrimaryIndex 0 0 2
    ∧ rrPrimaryIndex 0 0 2 = (0 + 1) % 2
    ∧ ((proxyHandler brokerBackends (rrNewValue 0 0) exampleGet
        (fun _ => Outcome.response 200 [] []) ClientState.init).2.map
        Prod.fst).head? = some (rrPrimaryIndex 0 0 2) :=
  rrPrimaryIndex_round_robin 0 0 brokerBackends exampleGet
    (fun _ => Outcome.response 200 [] []) none (by decide) (by decide)

theorem dropLeadingSlashes_of_head_ne (l : List Char) (h : l.head? ≠ some '/') :
    dropLeadingSlashes l = l := by
  cases l with
  | nil => rfl
  | cons c cs =>
    simp only [dropLeadingSlashes]
    rw [if_neg]
    intro hc
    exact h (by rw [hc]; rfl)

theorem dropLeadingSlashes_suffix (l : List Char) : dropLeadingSlashes l <:+ l := by
  induction l with
  | nil => exact List.suffix_refl _
  | cons c cs ih =>
    simp only [dropLeadingSlashes]
    by_cases hc : c = '/'
    · rw [if_pos hc]
      exact ih.trans (List.suffix_cons c cs)
    · rw [if_neg hc]

/-- C7 counterexample: with the VM base URL (empty base path) and the
incoming path `//x` — reachable, since Go's server delivers `GET //x` with
`r.URL.Path = "//x"` — `joinURL` keeps both slashes, while the spec's
one-slash join would not: the constructed URL has a double slash between
the base path and the incoming path. -/
theorem joinURL_double_slash_counterexample :
    joinURL VMBackendURL "//x" "" = "http://10.142.0.3:8080//x"
    ∧ specOneSlashJoin VMBackendURL "//x" "" = "http://10.142.0.3:8080/x"
    ∧ joinURL VMBackendURL "//x" "" ≠ specOneSlashJoin VMBackendURL "//x" "" := by
  refine ⟨by decide, by decide, by decide⟩

/-- C7 amended: in preserve mode, for every base URL with non-empty scheme
and host (and a path that is empty or absolute, as `url.Parse` guarantees),
the constructed target URL joins base + path + query with exactly one slash
between the base path and the incoming path — unless the base path is empty
or a bare `/` and the incoming path begins with two or more slashes, in
which case the incoming path is used verbatim and the extra slash survives
(the counterexample). -/
theorem joinURL_single_slash_join (base : URL) (path rawQuery : String)
    (hh : base.host ≠ "")
    (hbp : base.path = "" ∨ base.path.data.head? = some '/')
    (hnd : ¬((base.path = "" ∨ base.path = "/") ∧ path.data.take 2 = ['/', '/'])) :
    joinURL base path rawQuery = specOneSlashJoin base path rawQuery := by
  rcases Decidable.em (base.path = "" ∨ base.path = "/") with hA | hB
  · -- base path "" or "/": joinURL uses the incoming path verbatim
    have hnd2 : path.data.take 2 ≠ ['/', '/'] := fun hc => hnd ⟨hA, hc⟩
    have htr : stringsTrimRightSlash base.path = "" := by
      rcases hA with h | h <;> rw [h] <;> rfl
    rw [joinURL, specOneSlashJoin]
    simp only [if_pos hA, htr]
    set p' := if path = "" then "/" else path with hp'
    have hp'ne : p' ≠ "" := by
      rw [hp']
      split
      · decide
      · assumption
    have hp'take : p'.data.take 2 ≠ ['/', '/'] := by
      rw [hp']
      split
      · decide
      · exact hnd2
    rcases hcase : p'.data with _ | ⟨c, cs⟩
    · exact absurd (String.ext (by rw [hcase])) hp'ne
    · by_cases hc : c = '/'
      · -- p' starts with '/': no slash inserted; cs must not start with '/'
        subst hc
        have hcs : cs.head? ≠ some '/' := by
          intro hcs
          apply hp'take
          rcases hcs2 : cs with _ | ⟨d, ds⟩
          · rw [hcs2] at hcs; simp at hcs
          · rw [hcs2] at hcs
            simp at hcs
            rw [hcase, hcs2, hcs]
            rfl
        rw [urlString]
        simp only
        rw [if_neg (by
          rintro ⟨h1, h2, h3⟩
          exact h2 (by rw [hcase]; rfl))]
        apply String.ext
        simp only [String.data_append, stringsTrimLeftSlash]
        rw [hcase]
        simp only [dropLeadingSlashes, if_pos rfl]
        rw [dropLeadingSlashes_of_head_ne cs hcs]
        simp
      · -- p' does not start with '/': urlString inserts the slash
        rw [urlString]
        simp only
        rw [if_pos ⟨hp'ne, by rw [hcase]; simp [hc], hh⟩]
        apply String.ext
        simp only [String.data_append, stringsTrimLeftSlash]
        rw [hcase]
        simp only [dropLeadingSlashes, if_neg hc]
        simp
  · -- base path non-trivial: the else branch of joinURL normalizes
    push_neg at hB
    have hbp' : base.path.data.head? = some '/' := by
      rcases hbp with h | h
      · exact absurd h hB.1
      · exact h
    rw [joinURL, specOneSlashJoin]
    rw [if_neg (by push_neg; exact hB)]
    set p' := if path = "" then "/" else path with hp'
    set T := (dropLeadingSlashes base.path.data.reverse).reverse with hT
    have hTpre : T <+: base.path.data := by
      rw [← List.reverse_suffix, hT, List.reverse_reverse]
      exact dropLeadingSlashes_suffix _
    have hhead : (stringsTrimRightSlash base.path ++ "/" ++
        stringsTrimLeftSlash p').data.head? = some '/' := by
      simp only [String.data_append, stringsTrimRightSlash, stringsTrimLeftSlash]
      rcases hTc : T with _ | ⟨x, xs⟩
      · rw [hT] at hTc
        rw [hTc]
        rfl
      · obtain ⟨u, hu⟩ := hTpre
        rw [hTc] at hu
        have hx : x = '/' := by
          have : base.path.data.head? = some x := by rw [← hu]; rfl
          rw [hbp'] at this
          exact (Option.some.injEq _ _ ▸ this.symm)
        rw [← hT, hTc, hx]
        rfl
    rw [urlString]
    simp only
    rw [if_neg (by
      rintro ⟨h1, h2, h3⟩
      exact h2 hhead)]
    apply String.ext
    simp only [String.data_append]
    simp

/-- Witness for C7's amended claim: an absolute incoming path against the
serverless base (empty base path) joins with exactly one slash. -/
theorem joinURL_single_slash_join_inst :
    joinURL FunctionBackendURL "/avg" "points=4"
      = specOneSlashJoin FunctionBackendURL "/avg" "points=4" :=
  joinURL_single_slash_join FunctionBackendURL "/avg" "points=4"
    (by decide) (Or.inl rfl) (by decide)

end LoadServerless
